import Mathlib

/-!
# Banking-System: a shallow embedding of the account/customer/bank model

This file embeds the domain model of the JavaScript banking system
(`app.js`: `Transaction`, `Account`, `SavingsAccount`, `CheckingAccount`,
`Customer`, `Bank`) in Lean 4 and proves the specification's claims about
it.

Modelling conventions:
* JS numbers are modelled as exact rationals `ℚ` (the arithmetic the code
  performs is a handful of additions/subtractions/multiplications on small
  literals; the rational model captures the intended real-number
  semantics).
* Thrown `Error`s become `Except BankError`; each distinct `throw` site in
  the source has its own `BankError` constructor, and an operation that
  throws in JS returns `Except.error` here, producing no mutated state —
  which matches the source, where every `throw` happens before any field
  mutation of the operation.
* The class hierarchy `Account` / `SavingsAccount` / `CheckingAccount` is
  flattened to one structure with an `AccountKind` tag carrying the
  subclass fields (`interestRate`/`minBalance` for savings,
  `overdraftLimit`/`monthlyFee` for checking); `_canWithdraw`,
  `calculateInterest`, `applyInterest`, `chargeMonthlyFee` dispatch on the
  tag exactly as the overridden methods do.
* `Transaction.timestamp` (wall-clock) and the process-wide
  `Transaction.idCounter` are omitted: no claim refers to them, and both
  are ambient-environment state. The static `Account.accountCounter` is
  threaded explicitly through `Customer.openAccount`.
-/

/-! ## Transaction (`transaction.js`) -/

/-- One ledger record: `type`, `amount`, `description`, `status` exactly as
in the `Transaction` class (timestamp and sequential id omitted, see module
header). -/
structure Transaction where
  type : String
  amount : ℚ
  description : String
  status : String
  deriving Repr, DecidableEq

/-- Constructor `new Transaction(type, amount, description)`: created with
`status = 'pending'`. -/
def Transaction.create (type : String) (amount : ℚ) (description : String) :
    Transaction :=
  { type, amount, description, status := "pending" }

/-- Method `complete()`: sets `status = 'completed'`. -/
def Transaction.complete (t : Transaction) : Transaction :=
  { t with status := "completed" }

/-- Method `fail()`: sets `status = 'failed'`. -/
def Transaction.toFailed (t : Transaction) : Transaction :=
  { t with status := "failed" }

/-! ## Account (`account.js`, `savings-account.js`, `checking-account.js`) -/

/-- The concrete subclass of `Account`, with the fields each subclass
constructor adds: `SavingsAccount` sets `_interestRate = 0.02` and
`_minBalance = 100`; `CheckingAccount` sets `_overdraftLimit = 500` and
`_monthlyFee = 10`. -/
inductive AccountKind where
  | savings (interestRate minBalance : ℚ)
  | checking (overdraftLimit monthlyFee : ℚ)
  deriving Repr, DecidableEq

/-- The `Account` state: the base-class fields plus the subclass tag. -/
structure Account where
  accountNumber : Nat
  customerId : Nat
  balance : ℚ
  kind : AccountKind
  transactions : List Transaction
  isActive : Bool
  dailyWithdrawalLimit : ℚ
  todayWithdrawn : ℚ
  deriving Repr, DecidableEq

/-- Method `_addTransaction(type, amount, description)`: create
a transaction, complete it, push it onto `_transactions`. -/
def Account.addTransaction (a : Account) (type : String) (amount : ℚ)
    (description : String) : Account :=
  { a with transactions :=
      a.transactions ++ [(Transaction.create type amount description).complete] }

/-- The `Account` base-class constructor body shared by both subclasses:
balance, empty history, `isActive = true`, `_dailyWithdrawalLimit = 1000`,
`_todayWithdrawn = 0`, then the `account_opening` transaction for the
initial balance. -/
def Account.base (accountNumber customerId : Nat) (initialBalance : ℚ)
    (kind : AccountKind) : Account :=
  Account.addTransaction
    { accountNumber, customerId, balance := initialBalance, kind,
      transactions := [], isActive := true, dailyWithdrawalLimit := 1000,
      todayWithdrawn := 0 }
    "account_opening" initialBalance "Account opened"

/-- Constructor `new SavingsAccount(customerId, initialBalance)`. -/
def SavingsAccount.make (accountNumber customerId : Nat)
    (initialBalance : ℚ) : Account :=
  Account.base accountNumber customerId initialBalance
    (AccountKind.savings 0.02 100)

/-- Constructor `new CheckingAccount(customerId, initialBalance)`. -/
def CheckingAccount.make (accountNumber customerId : Nat)
    (initialBalance : ℚ) : Account :=
  Account.base accountNumber customerId initialBalance
    (AccountKind.checking 500 10)

/-- The `accountType` string set by the subclass constructors. -/
def Account.accountType (a : Account) : String :=
  match a.kind with
  | AccountKind.savings _ _ => "savings"
  | AccountKind.checking _ _ => "checking"

/-- Whether the account is a `SavingsAccount`. -/
def Account.isSavings (a : Account) : Bool :=
  match a.kind with
  | AccountKind.savings _ _ => true
  | AccountKind.checking _ _ => false

/-- Whether the account is a `CheckingAccount`. -/
def Account.isChecking (a : Account) : Bool :=
  match a.kind with
  | AccountKind.savings _ _ => false
  | AccountKind.checking _ _ => true

/-- The savings subclass field `_interestRate` (0 on a checking account,
which has no such field). -/
def Account.interestRate (a : Account) : ℚ :=
  match a.kind with
  | AccountKind.savings r _ => r
  | AccountKind.checking _ _ => 0

/-- The savings subclass field `_minBalance` (0 on a checking account). -/
def Account.minBalance (a : Account) : ℚ :=
  match a.kind with
  | AccountKind.savings _ m => m
  | AccountKind.checking _ _ => 0

/-- The checking subclass field `_overdraftLimit` (0 on a savings
account). -/
def Account.overdraftLimit (a : Account) : ℚ :=
  match a.kind with
  | AccountKind.savings _ _ => 0
  | AccountKind.checking od _ => od

/-- The checking subclass field `_monthlyFee` (0 on a savings account). -/
def Account.monthlyFee (a : Account) : ℚ :=
  match a.kind with
  | AccountKind.savings _ _ => 0
  | AccountKind.checking _ fee => fee

/-- Each distinct `throw` site of the core model. -/
inductive BankError where
  /-- Thrown as `"Deposit amount must be positive"`. -/
  | invalidDeposit
  /-- Thrown as `"Withdrawal amount must be positive"`. -/
  | invalidWithdrawal
  /-- Thrown as `"Cannot withdraw $... Insufficient funds or limit exceeded"`. -/
  | withdrawalDenied
  /-- Thrown as `"Unknown account type: ..."`. -/
  | unknownAccountType (t : String)
  /-- Thrown as `"One or both accounts not found"`. -/
  | accountNotFound
  /-- Thrown as `"Cannot transfer to the same account"`. -/
  | sameAccountTransfer
  deriving Repr, DecidableEq

/-- The base-class `Account.prototype._canWithdraw`:
`balance >= amount && todayWithdrawn + amount <= dailyWithdrawalLimit`. -/
def Account.canWithdrawBase (a : Account) (amount : ℚ) : Bool :=
  decide (amount ≤ a.balance) &&
    decide (a.todayWithdrawn + amount ≤ a.dailyWithdrawalLimit)

/-- The virtual `_canWithdraw` dispatch: `SavingsAccount` conjoins the base
rule with `balance - amount >= minBalance`; `CheckingAccount` replaces the
funds test by `balance + overdraftLimit >= amount` and keeps the daily
limit test. -/
def Account.canWithdraw (a : Account) (amount : ℚ) : Bool :=
  match a.kind with
  | AccountKind.savings _ minBal =>
      a.canWithdrawBase amount && decide (minBal ≤ a.balance - amount)
  | AccountKind.checking overdraft _ =>
      decide (amount ≤ a.balance + overdraft) &&
        decide (a.todayWithdrawn + amount ≤ a.dailyWithdrawalLimit)

/-- Method `deposit(amount)`: throws on `amount <= 0`, else adds
to the balance and appends a completed `deposit` transaction. -/
def Account.deposit (a : Account) (amount : ℚ) : Except BankError Account :=
  if amount ≤ 0 then Except.error BankError.invalidDeposit
  else Except.ok (Account.addTransaction
    { a with balance := a.balance + amount }
    "deposit" amount ("Deposit to account " ++ toString a.accountNumber))

/-- Method `withdraw(amount)`: throws on `amount <= 0`, throws
when `_canWithdraw(amount)` is false, else subtracts from the balance, adds
to `_todayWithdrawn` and appends a completed `withdrawal` transaction. -/
def Account.withdraw (a : Account) (amount : ℚ) : Except BankError Account :=
  if amount ≤ 0 then Except.error BankError.invalidWithdrawal
  else if !(a.canWithdraw amount) then Except.error BankError.withdrawalDenied
  else Except.ok (Account.addTransaction
    { a with balance := a.balance - amount,
             todayWithdrawn := a.todayWithdrawn + amount }
    "withdrawal" amount
    ("Withdrawal from account " ++ toString a.accountNumber))

/-- The virtual `calculateInterest(months = 1)`: savings returns
`balance * (interestRate / 12) * months`, checking returns 0. A pure
projection: it reads the account and mutates nothing. -/
def Account.calculateInterest (a : Account) (months : ℚ) : ℚ :=
  match a.kind with
  | AccountKind.savings rate _ => a.balance * (rate / 12) * months
  | AccountKind.checking _ _ => 0

/-- Method `applyInterest(months = 1)` of the savings subclass: computes the
interest, adds it to the balance, appends a completed `interest`
transaction, and returns the interest amount. (The method exists only on
the savings subclass; the model is applied only to savings accounts.) -/
def Account.applyInterest (a : Account) (months : ℚ) : ℚ × Account :=
  let interest := a.calculateInterest months
  (interest, Account.addTransaction { a with balance := a.balance + interest }
    "interest" interest
    ("Interest applied for " ++ toString months ++ " month(s)"))

/-- Method `chargeMonthlyFee()` of the checking subclass: if
`balance >= monthlyFee`, subtract the fee, append a completed `fee`
transaction with amount `-monthlyFee`, and return true; otherwise mutate
nothing and return false. (The method exists only on the checking
subclass; on a savings account the model performs no mutation.) -/
def Account.chargeMonthlyFee (a : Account) : Bool × Account :=
  match a.kind with
  | AccountKind.checking _ fee =>
      if fee ≤ a.balance then
        (true, Account.addTransaction { a with balance := a.balance - fee }
          "fee" (-fee) "Monthly maintenance fee")
      else (false, a)
  | AccountKind.savings _ _ => (false, a)

/-! ## Customer (`customer.js`) -/

/-- Lookup in the insertion-ordered `accountNumber -> Account` map
(`Map.get`). -/
def lookupAcct : List (Nat × Account) → Nat → Option Account
  | [], _ => none
  | (k, a) :: rest, n => if k = n then some a else lookupAcct rest n

/-- In-place update of an existing entry of the map: JS mutates the stored
`Account` object, which keeps its position and key in the `Map`. -/
def updateAcct : List (Nat × Account) → Nat → Account → List (Nat × Account)
  | [], _, _ => []
  | (k, a) :: rest, n, v =>
      if k = n then (k, v) :: rest else (k, a) :: updateAcct rest n v

/-- The `Customer` state (`_createdDate` omitted: wall-clock). The
`accounts` field is the insertion-ordered `Map` as an association list. -/
structure Customer where
  customerId : Nat
  firstName : String
  lastName : String
  email : String
  passwordHash : String
  accounts : List (Nat × Account)
  isActive : Bool
  deriving Repr, DecidableEq

/-- Method `getAccount(accountNumber)` of `Customer`. -/
def Customer.getAccount (c : Customer) (accountNumber : Nat) :
    Option Account :=
  lookupAcct c.accounts accountNumber

/-- The `accountType.toLowerCase()` call: JS lowercases the string
character by character (for the ASCII alphabet, mapping each
`Char.toLower`). -/
def lowerStr (s : String) : String :=
  String.mk (s.data.map Char.toLower)

/-- Method `openAccount(accountType, initialDeposit = 0)` of `Customer`:
dispatch on `accountType.toLowerCase()`, throw `UnknownAccountType`
otherwise; the static `Account.accountCounter` is threaded explicitly as
`acctCounter` (the constructed account takes the current value, and the
counter is returned incremented). Returns the new account as the source
does, together with the updated customer and counter. -/
def Customer.openAccount (c : Customer) (acctCounter : Nat)
    (accountType : String) (initialDeposit : ℚ) :
    Except BankError (Account × Customer × Nat) :=
  let t := lowerStr accountType
  if t = "savings" then
    let account := SavingsAccount.make acctCounter c.customerId initialDeposit
    Except.ok (account,
      { c with accounts := c.accounts ++ [(account.accountNumber, account)] },
      acctCounter + 1)
  else if t = "checking" then
    let account := CheckingAccount.make acctCounter c.customerId initialDeposit
    Except.ok (account,
      { c with accounts := c.accounts ++ [(account.accountNumber, account)] },
      acctCounter + 1)
  else Except.error (BankError.unknownAccountType accountType)

/-- Method `getTotalBalance()` of `Customer`. -/
def Customer.getTotalBalance (c : Customer) : ℚ :=
  (c.accounts.map (fun p => p.2.balance)).sum

/-- Method `transfer(fromAccountNumber, toAccountNumber,
amount)`: look both accounts up (`AccountNotFound` if either is missing),
reject a same-object transfer (the `===` identity test — two distinct keys
of the map always hold distinct objects, so identity is key equality),
withdraw from the source, deposit to the destination, then append the
`transfer_out` / `transfer_in` records. A `throw` from `withdraw` aborts
the whole call before any mutation; the `deposit` leg cannot throw after a
successful withdrawal (a successful withdrawal forces `amount > 0`), so
the error propagation below is exact. Returns the two resulting
balances. -/
def Customer.transfer (c : Customer) (fromAccountNumber toAccountNumber : Nat)
    (amount : ℚ) : Except BankError (Customer × ℚ × ℚ) :=
  match c.getAccount fromAccountNumber, c.getAccount toAccountNumber with
  | some fromAccount, some toAccount =>
    if fromAccountNumber = toAccountNumber then
      Except.error BankError.sameAccountTransfer
    else
      match fromAccount.withdraw amount with
      | Except.error e => Except.error e
      | Except.ok from1 =>
        match toAccount.deposit amount with
        | Except.error e => Except.error e
        | Except.ok to1 =>
          let from2 := from1.addTransaction "transfer_out" amount
            ("Transferred to account " ++ toString toAccountNumber)
          let to2 := to1.addTransaction "transfer_in" amount
            ("Received from account " ++ toString fromAccountNumber)
          let accounts2 :=
            updateAcct (updateAcct c.accounts fromAccountNumber from2)
              toAccountNumber to2
          Except.ok ({ c with accounts := accounts2 },
             from2.balance, to2.balance)
  | _, _ => Except.error BankError.accountNotFound

/-! ## Bank singleton (`bank.js`) -/

/-- The `Bank` state. -/
structure Bank where
  bankName : String
  location : String
  customers : List (Nat × Customer)
  totalDeposits : ℚ
  totalLoans : ℚ
  bankBalance : ℚ
  transactionFee : ℚ
  deriving Repr, DecidableEq

/-- The body of the `Bank` constructor when no instance exists yet. -/
def Bank.make (name location : String) : Bank :=
  { bankName := name, location, customers := [], totalDeposits := 0,
    totalLoans := 0, bankBalance := 1000000, transactionFee := 0.5 }

/-- Static method `getInstance(name, location)`: the static field `Bank.instance`
is passed and returned explicitly as an `Option Bank`. When an instance
exists it is returned as-is and the arguments are ignored; otherwise a new
bank is constructed from the arguments and stored. -/
def Bank.getInstance (inst : Option Bank) (name location : String) :
    Bank × Option Bank :=
  match inst with
  | some b => (b, some b)
  | none =>
    let b := Bank.make name location
    (b, some b)

/-! ## Operation sequences over one account

The balance/ledger invariant (claim C1) quantifies over arbitrary
sequences of the four account-level mutators. `Account.runOp` applies one
such operation, keeping the account unchanged when the operation throws
(a thrown operation mutates nothing in the source) or when the method does
not exist on the account's subclass. -/

/-- One account-level operation of the claim-C1 sequence. -/
inductive AccountOp where
  | deposit (amount : ℚ)
  | withdraw (amount : ℚ)
  | applyInterest (months : ℚ)
  | chargeMonthlyFee
  deriving Repr, DecidableEq

/-- Apply one operation; a failing (throwing) operation leaves the account
unchanged, as does invoking a subclass method the account does not have
(`applyInterest` on checking, `chargeMonthlyFee` on savings). -/
def Account.runOp (a : Account) (op : AccountOp) : Account :=
  match op with
  | AccountOp.deposit q =>
    match a.deposit q with
    | Except.ok a1 => a1
    | Except.error _ => a
  | AccountOp.withdraw q =>
    match a.withdraw q with
    | Except.ok a1 => a1
    | Except.error _ => a
  | AccountOp.applyInterest m =>
    match a.kind with
    | AccountKind.savings _ _ => (a.applyInterest m).2
    | AccountKind.checking _ _ => a
  | AccountOp.chargeMonthlyFee => (a.chargeMonthlyFee).2

/-- Apply a sequence of operations left to right. -/
def Account.runOps (a : Account) (ops : List AccountOp) : Account :=
  ops.foldl Account.runOp a

/-- The signed amount a transaction contributes to the balance: a
`withdrawal` record of amount `q` stands for a debit of `q`; every other
record type stores its balance delta directly (a `fee` record already
stores the negative amount `-monthlyFee`). -/
def Transaction.signedAmount (t : Transaction) : ℚ :=
  if t.type = "withdrawal" then -t.amount else t.amount

/-- The signed sum of the amounts of all completed transactions of a
ledger. -/
def completedSignedSum (ts : List Transaction) : ℚ :=
  ((ts.filter (fun t => t.status == "completed")).map
    Transaction.signedAmount).sum

/-- The claim-C1 invariant: the balance is the signed sum of the completed
transactions on the account. -/
def balanceMatchesLedger (a : Account) : Prop :=
  a.balance = completedSignedSum a.transactions

/-! ## A store model for the `transactions` getter (claim C9)

The pure `Account` model cannot express JS array aliasing, so the getter's
copy semantics (`get transactions() { return [...this._transactions]; }`)
is modelled against an explicit store of arrays: references are indices,
the account holds the reference of its `_transactions` array, and the
getter allocates a fresh array holding a copy of the current contents. -/

/-- A store of `Transaction` arrays: `next` is the first unallocated
reference. -/
structure Store where
  next : Nat
  data : Nat → List Transaction

/-- Dereference an array. -/
def Store.read (s : Store) (r : Nat) : List Transaction :=
  s.data r

/-- Mutate the array behind a reference (any combination of element
assignments, `push`, `splice`, ... results in some new contents `v`). -/
def Store.write (s : Store) (r : Nat) (v : List Transaction) : Store :=
  { s with data := fun i => if i = r then v else s.data i }

/-- Allocate a fresh array with contents `v`. -/
def Store.alloc (s : Store) (v : List Transaction) : Nat × Store :=
  (s.next,
   { next := s.next + 1, data := fun i => if i = s.next then v else s.data i })

/-- An account as seen by the store model: the reference of its
`_transactions` array. -/
structure AccountRef where
  txRef : Nat

/-- The `get transactions()` accessor: `[...this._transactions]` allocates
a fresh array holding a copy of the current history and returns (a
reference to) it. -/
def AccountRef.transactionsGetter (s : Store) (a : AccountRef) :
    Nat × Store :=
  Store.alloc s (Store.read s a.txRef)

/-! ## Shared characterization lemmas -/

/-- Success case of `withdraw`: it succeeds exactly on a positive amount
passing `_canWithdraw`, and then produces the debited account with the
appended completed record. -/
lemma Account.withdraw_eq_ok_iff (a a1 : Account) (q : ℚ) :
    a.withdraw q = Except.ok a1 ↔
      0 < q ∧ a.canWithdraw q = true ∧
      a1 = Account.addTransaction
        { a with balance := a.balance - q,
                 todayWithdrawn := a.todayWithdrawn + q }
        "withdrawal" q ("Withdrawal from account " ++ toString a.accountNumber) := by
  rw [Account.withdraw]
  by_cases h : q ≤ 0
  · simp [h, not_lt.mpr h]
  · rw [if_neg h]
    by_cases hc : a.canWithdraw q
    · simp [hc, not_le.mp h, eq_comm]
    · simp [hc, not_le.mp h]

/-- Success case of `deposit`: it succeeds exactly on a positive amount. -/
lemma Account.deposit_eq_ok_iff (a a1 : Account) (q : ℚ) :
    a.deposit q = Except.ok a1 ↔
      0 < q ∧
      a1 = Account.addTransaction { a with balance := a.balance + q }
        "deposit" q ("Deposit to account " ++ toString a.accountNumber) := by
  rw [Account.deposit]
  by_cases h : q ≤ 0
  · simp [h, not_lt.mpr h]
  · simp [h, not_le.mp h, eq_comm]

/-- Appending one transaction extends the completed signed sum by the
record's contribution. -/
lemma completedSignedSum_append (ts : List Transaction) (t : Transaction) :
    completedSignedSum (ts ++ [t]) =
      completedSignedSum ts +
        (if t.status = "completed" then t.signedAmount else 0) := by
  by_cases h : t.status = "completed" <;>
    simp [completedSignedSum, List.filter_append, h]

/-- The account produced by the base constructor satisfies the ledger
invariant. -/
lemma base_balanceMatchesLedger (n cid : Nat) (init : ℚ) (k : AccountKind) :
    balanceMatchesLedger (Account.base n cid init k) := by
  simp [Account.base, Account.addTransaction, balanceMatchesLedger,
    completedSignedSum, Transaction.create, Transaction.complete,
    Transaction.signedAmount]

/-- One operation preserves the ledger invariant. -/
lemma runOp_preserves_ledger (a : Account) (op : AccountOp)
    (h : balanceMatchesLedger a) : balanceMatchesLedger (a.runOp op) := by
  cases op with
  | deposit q =>
    rcases hd : a.deposit q with e | a1
    · simpa [Account.runOp, hd] using h
    · rcases (Account.deposit_eq_ok_iff a a1 q).1 hd with ⟨hq, rfl⟩
      simp only [Account.runOp, hd, balanceMatchesLedger,
        Account.addTransaction] at h ⊢
      simp [completedSignedSum_append, Transaction.create,
        Transaction.complete, Transaction.signedAmount, h]
  | withdraw q =>
    rcases hd : a.withdraw q with e | a1
    · simpa [Account.runOp, hd] using h
    · rcases (Account.withdraw_eq_ok_iff a a1 q).1 hd with ⟨hq, _, rfl⟩
      simp only [Account.runOp, hd, balanceMatchesLedger,
        Account.addTransaction] at h ⊢
      simp [completedSignedSum_append, Transaction.create,
        Transaction.complete, Transaction.signedAmount, h]
      ring
  | applyInterest m =>
    rcases hk : a.kind with ⟨r, mb⟩ | ⟨od, fee⟩
    · simp only [Account.runOp, hk, Account.applyInterest,
        Account.addTransaction, balanceMatchesLedger] at h ⊢
      simp [completedSignedSum_append, Transaction.create,
        Transaction.complete, Transaction.signedAmount, h]
    · simpa [Account.runOp, hk] using h
  | chargeMonthlyFee =>
    rcases hk : a.kind with ⟨r, mb⟩ | ⟨od, fee⟩
    · simpa [Account.runOp, Account.chargeMonthlyFee, hk] using h
    · by_cases hb : fee ≤ a.balance
      · simp only [Account.runOp, Account.chargeMonthlyFee, hk, if_pos hb,
          Account.addTransaction, balanceMatchesLedger] at h ⊢
        simp [completedSignedSum_append, Transaction.create,
          Transaction.complete, Transaction.signedAmount, h]
        ring
      · simpa [Account.runOp, Account.chargeMonthlyFee, hk, if_neg hb] using h

/-- A whole operation sequence preserves the ledger invariant. -/
lemma runOps_preserves_ledger (ops : List AccountOp) (a : Account)
    (h : balanceMatchesLedger a) : balanceMatchesLedger (a.runOps ops) := by
  induction ops generalizing a with
  | nil => simpa [Account.runOps]
  | cons op rest ih =>
    rw [Account.runOps, List.foldl_cons]
    exact ih _ (runOp_preserves_ledger _ _ h)

/-- Both variants of `_canWithdraw` contain the daily-limit conjunct. -/
lemma canWithdraw_daily_limit (a : Account) (q : ℚ)
    (h : a.canWithdraw q = true) :
    a.todayWithdrawn + q ≤ a.dailyWithdrawalLimit := by
  rcases hk : a.kind with ⟨r, mb⟩ | ⟨od, fee⟩ <;>
    simp [Account.canWithdraw, hk, Account.canWithdrawBase] at h
  · exact h.1.2
  · exact h.2

/-- Exceeding the daily limit refutes `_canWithdraw` on either variant. -/
lemma canWithdraw_false_of_over_limit (a : Account) (q : ℚ)
    (h : a.dailyWithdrawalLimit < a.todayWithdrawn + q) :
    a.canWithdraw q = false := by
  rcases hk : a.kind with ⟨r, mb⟩ | ⟨od, fee⟩ <;>
    simp [Account.canWithdraw, hk, Account.canWithdrawBase, not_le.mpr h]

/-- A withdrawal refused by `_canWithdraw` does not succeed. -/
lemma withdraw_isOk_false_of_cannot (a : Account) (q : ℚ)
    (h : a.canWithdraw q = false) : (a.withdraw q).isOk = false := by
  rw [Account.withdraw]
  by_cases hq : q ≤ 0 <;> simp [hq, h, Except.isOk, Except.toBool]

/-- A positive withdrawal refused by `_canWithdraw` throws the
`WithdrawalDenied` error. -/
lemma withdraw_denied_of_cannot (a : Account) (q : ℚ) (hq : 0 < q)
    (h : a.canWithdraw q = false) :
    a.withdraw q = Except.error BankError.withdrawalDenied := by
  simp [Account.withdraw, not_le.mpr hq, h]

/-- A positive withdrawal passing `_canWithdraw` succeeds. -/
lemma withdraw_isOk_true (a : Account) (q : ℚ) (hq : 0 < q)
    (h : a.canWithdraw q = true) : (a.withdraw q).isOk = true := by
  simp [Account.withdraw, not_le.mpr hq, h, Except.isOk, Except.toBool]

/-- A failing withdrawal leaves the account state unchanged. -/
lemma runOp_withdraw_error (a : Account) (q : ℚ)
    (h : (a.withdraw q).isOk = false) :
    a.runOp (AccountOp.withdraw q) = a := by
  rcases hd : a.withdraw q with e | a1
  · simp [Account.runOp, hd]
  · rw [hd] at h; simp [Except.isOk, Except.toBool] at h

/-- Updating a present key makes lookup return the new value. -/
lemma lookupAcct_update_self (l : List (Nat × Account)) (k : Nat) (v : Account)
    (h : (lookupAcct l k).isSome) : lookupAcct (updateAcct l k v) k = some v := by
  induction l with
  | nil => simp [lookupAcct] at h
  | cons p rest ih =>
    obtain ⟨k1, a1⟩ := p
    by_cases hk : k1 = k
    · simp [lookupAcct, updateAcct, hk]
    · simp only [lookupAcct, updateAcct, hk, if_false, if_neg hk] at h ⊢
      exact ih h

/-- Updating one key leaves lookups of other keys unchanged. -/
lemma lookupAcct_update_ne (l : List (Nat × Account)) (k k2 : Nat) (v : Account)
    (h : k2 ≠ k) :
    lookupAcct (updateAcct l k v) k2 = lookupAcct l k2 := by
  induction l with
  | nil => simp [updateAcct]
  | cons p rest ih =>
    obtain ⟨k1, a1⟩ := p
    by_cases hk : k1 = k
    · subst hk
      simp [updateAcct, lookupAcct, Ne.symm h]
    · by_cases hk2 : k1 = k2 <;> simp [updateAcct, lookupAcct, hk, hk2, h, ih]

/-- C1: for every account (savings or checking, any initial balance), after
any sequence of deposit / withdraw / applyInterest / chargeMonthlyFee
operations (an operation that throws mutates nothing), the balance equals
the signed sum of the amounts of all completed transactions recorded on
the account, including the `account_opening` transaction. -/
theorem claim_C1_balance_is_ledger_sum (accountNumber customerId : Nat)
    (initialBalance : ℚ) (ops : List AccountOp) :
    balanceMatchesLedger
      ((SavingsAccount.make accountNumber customerId initialBalance).runOps ops)
    ∧ balanceMatchesLedger
      ((CheckingAccount.make accountNumber customerId initialBalance).runOps ops) :=
  ⟨runOps_preserves_ledger ops _ (base_balanceMatchesLedger _ _ _ _),
   runOps_preserves_ledger ops _ (base_balanceMatchesLedger _ _ _ _)⟩

/-- C5: a successful withdrawal accumulates its amount onto
`todayWithdrawn`, the accumulator never exceeds `dailyWithdrawalLimit`
after any successful withdrawal, and a follow-up withdrawal whose amount
added to the accumulator would exceed the limit fails regardless of the
individual amount. The constructors set the limit to 1000. -/
theorem claim_C5_daily_withdrawal_limit (a a1 : Account) (q q2 : ℚ)
    (h : a.withdraw q = Except.ok a1)
    (h2 : a.dailyWithdrawalLimit < a1.todayWithdrawn + q2) :
    a1.todayWithdrawn = a.todayWithdrawn + q
    ∧ a1.todayWithdrawn ≤ a.dailyWithdrawalLimit
    ∧ (a1.withdraw q2).isOk = false
    ∧ (∀ (n cid : Nat) (b : ℚ),
        (SavingsAccount.make n cid b).dailyWithdrawalLimit = 1000
        ∧ (CheckingAccount.make n cid b).dailyWithdrawalLimit = 1000) := by
  rcases (Account.withdraw_eq_ok_iff a a1 q).1 h with ⟨hq, hcan, rfl⟩
  have hacc : (Account.addTransaction
      { a with balance := a.balance - q,
               todayWithdrawn := a.todayWithdrawn + q }
      "withdrawal" q
      ("Withdrawal from account " ++ toString a.accountNumber)).todayWithdrawn
      = a.todayWithdrawn + q := rfl
  refine ⟨hacc, ?_, ?_, ?_⟩
  · rw [hacc]; exact canWithdraw_daily_limit a q hcan
  · apply withdraw_isOk_false_of_cannot
    apply canWithdraw_false_of_over_limit
    exact h2
  · intro n cid b
    exact ⟨rfl, rfl⟩

/-- C4 (counterexample): the claim as stated is false: on a fresh checking
account with balance 2000, the amount 1500 is positive and within
`balance + overdraftLimit = 2500`, yet the withdrawal fails, because the
daily withdrawal limit (1000) also bounds checking withdrawals. -/
theorem claim_C4_counterexample :
    0 < (1500 : ℚ)
    ∧ (1500 : ℚ) ≤ (CheckingAccount.make 1001 7 2000).balance
        + (CheckingAccount.make 1001 7 2000).overdraftLimit
    ∧ ((CheckingAccount.make 1001 7 2000).withdraw 1500).isOk = false := by
  refine ⟨by norm_num, by norm_num [CheckingAccount.make, Account.base,
    Account.addTransaction, Account.overdraftLimit], ?_⟩
  norm_num [CheckingAccount.make, Account.base, Account.addTransaction,
    Account.withdraw, Account.canWithdraw, Except.isOk, Except.toBool]

/-- C4 (amended): on a checking account a positive withdrawal within
`balance + overdraftLimit` succeeds provided it also respects the daily
withdrawal limit; any withdrawal beyond `balance + overdraftLimit` (in
particular one unit beyond) fails, with the `WithdrawalDenied` error when
the amount is positive. -/
theorem claim_C4_checking_overdraft (a : Account) (q : ℚ)
    (hk : a.isChecking = true) :
    ((0 < q ∧ q ≤ a.balance + a.overdraftLimit
        ∧ a.todayWithdrawn + q ≤ a.dailyWithdrawalLimit) →
      (a.withdraw q).isOk = true)
    ∧ (a.balance + a.overdraftLimit < q →
        (a.withdraw q).isOk = false
        ∧ (0 < q → a.withdraw q = Except.error BankError.withdrawalDenied)) := by
  rcases hkind : a.kind with ⟨r, mb⟩ | ⟨od, fee⟩
  · simp [Account.isChecking, hkind] at hk
  have hod : a.overdraftLimit = od := by simp [Account.overdraftLimit, hkind]
  constructor
  · rintro ⟨hq, hle, hdaily⟩
    apply withdraw_isOk_true a q hq
    rw [hod] at hle
    simp [Account.canWithdraw, hkind, hle, hdaily]
  · intro hover
    rw [hod] at hover
    have hcan : a.canWithdraw q = false := by
      simp [Account.canWithdraw, hkind, not_le.mpr hover]
    exact ⟨withdraw_isOk_false_of_cannot a q hcan,
      fun hq => withdraw_denied_of_cannot a q hq hcan⟩

/-- C4 (witness): fresh checking account with balance 100: a withdrawal of
400 (within 100 + 500, within the daily limit) succeeds, and a withdrawal
of 601 (one unit beyond 100 + 500) fails with `WithdrawalDenied`. -/
theorem claim_C4_witness :
    (CheckingAccount.make 1002 7 100).isChecking = true
    ∧ ((CheckingAccount.make 1002 7 100).withdraw 400).isOk = true
    ∧ (CheckingAccount.make 1002 7 100).withdraw 601
        = Except.error BankError.withdrawalDenied := by
  have hk : (CheckingAccount.make 1002 7 100).isChecking = true := by
    norm_num [CheckingAccount.make, Account.base, Account.addTransaction,
      Account.isChecking]
  refine ⟨hk, ?_, ?_⟩
  · exact (claim_C4_checking_overdraft _ 400 hk).1
      (by norm_num [CheckingAccount.make, Account.base, Account.addTransaction,
        Account.overdraftLimit])
  · exact ((claim_C4_checking_overdraft _ 601 hk).2
      (by norm_num [CheckingAccount.make, Account.base, Account.addTransaction,
        Account.overdraftLimit])).2 (by norm_num)

/-- C6: a savings withdrawal that would drop the balance below
`minBalance` never succeeds; when the amount is positive (any genuine
withdrawal) the error is `WithdrawalDenied`; and the failing operation
leaves the account, hence its balance, `todayWithdrawn` and history,
unchanged. -/
theorem claim_C6_savings_min_balance (a : Account) (q : ℚ)
    (hs : a.isSavings = true) (hmin : a.balance - q < a.minBalance) :
    (a.withdraw q).isOk = false
    ∧ (0 < q → a.withdraw q = Except.error BankError.withdrawalDenied)
    ∧ a.runOp (AccountOp.withdraw q) = a := by
  rcases hkind : a.kind with ⟨r, mb⟩ | ⟨od, fee⟩
  swap
  · simp [Account.isSavings, hkind] at hs
  have hmb : a.minBalance = mb := by simp [Account.minBalance, hkind]
  rw [hmb] at hmin
  have hcan : a.canWithdraw q = false := by
    simp [Account.canWithdraw, hkind, not_le.mpr hmin]
  have hfail := withdraw_isOk_false_of_cannot a q hcan
  exact ⟨hfail, fun hq => withdraw_denied_of_cannot a q hq hcan,
    runOp_withdraw_error a q hfail⟩

/-- C6 (witness): fresh savings account with balance 150: withdrawing 100
would leave 50 < 100, so the withdrawal fails with `WithdrawalDenied` and
the account is unchanged. -/
theorem claim_C6_witness :
    (SavingsAccount.make 1003 7 150).isSavings = true
    ∧ (SavingsAccount.make 1003 7 150).balance - 100
        < (SavingsAccount.make 1003 7 150).minBalance
    ∧ (SavingsAccount.make 1003 7 150).withdraw 100
        = Except.error BankError.withdrawalDenied
    ∧ (SavingsAccount.make 1003 7 150).runOp (AccountOp.withdraw 100)
        = SavingsAccount.make 1003 7 150 := by
  have hs : (SavingsAccount.make 1003 7 150).isSavings = true := by
    norm_num [SavingsAccount.make, Account.base, Account.addTransaction,
      Account.isSavings]
  have hmin : (SavingsAccount.make 1003 7 150).balance - 100
      < (SavingsAccount.make 1003 7 150).minBalance := by
    norm_num [SavingsAccount.make, Account.base, Account.addTransaction,
      Account.minBalance]
  obtain ⟨-, p2, p3⟩ := claim_C6_savings_min_balance _ 100 hs hmin
  exact ⟨hs, hmin, p2 (by norm_num), p3⟩

/-- C7: on a savings account with the constructor's rate 0.02,
`calculateInterest(m)` returns exactly `balance * (0.02/12) * m` (a pure
function of the account: the model mutates nothing), and
`applyInterest(m)` returns that amount, adds exactly it to the balance,
and appends one completed `interest` transaction recording it. -/
theorem claim_C7_savings_interest (a : Account) (m : ℚ)
    (hs : a.isSavings = true) (hr : a.interestRate = 0.02) :
    a.calculateInterest m = a.balance * (0.02 / 12) * m
    ∧ (a.applyInterest m).1 = a.balance * (0.02 / 12) * m
    ∧ (a.applyInterest m).2.balance = a.balance + a.balance * (0.02 / 12) * m
    ∧ (a.applyInterest m).2.transactions = a.transactions ++
        [{ type := "interest", amount := a.balance * (0.02 / 12) * m,
           description := "Interest applied for " ++ toString m ++ " month(s)",
           status := "completed" }] := by
  rcases hkind : a.kind with ⟨r, mb⟩ | ⟨od, fee⟩
  swap
  · simp [Account.isSavings, hkind] at hs
  have hrr : r = 0.02 := by
    have := hr
    rw [Account.interestRate, hkind] at this
    exact this
  subst hrr
  simp [Account.calculateInterest, hkind, Account.applyInterest,
    Account.addTransaction, Transaction.create, Transaction.complete]

/-- C7 (witness): savings account with balance 1000 at one month:
interest is exactly `1000 * (0.02/12) = 5/3` (the claimed 1.667), both
returned, added to the balance and recorded. -/
theorem claim_C7_witness :
    (SavingsAccount.make 1000 7 1000).isSavings = true
    ∧ (SavingsAccount.make 1000 7 1000).interestRate = 0.02
    ∧ (SavingsAccount.make 1000 7 1000).calculateInterest 1 = 5 / 3
    ∧ ((SavingsAccount.make 1000 7 1000).applyInterest 1).1 = 5 / 3
    ∧ ((SavingsAccount.make 1000 7 1000).applyInterest 1).2.balance
        = 1000 + 5 / 3 := by
  have hs : (SavingsAccount.make 1000 7 1000).isSavings = true := by
    norm_num [SavingsAccount.make, Account.base, Account.addTransaction,
      Account.isSavings]
  have hr : (SavingsAccount.make 1000 7 1000).interestRate = 0.02 := by
    norm_num [SavingsAccount.make, Account.base, Account.addTransaction,
      Account.interestRate]
  obtain ⟨p1, p2, p3, -⟩ := claim_C7_savings_interest _ 1 hs hr
  have hb : (SavingsAccount.make 1000 7 1000).balance = 1000 := by
    norm_num [SavingsAccount.make, Account.base, Account.addTransaction]
  refine ⟨hs, hr, ?_, ?_, ?_⟩
  · rw [p1, hb]; norm_num
  · rw [p2, hb]; norm_num
  · rw [p3, hb]; norm_num

/-- C2: a permitted transfer moves exactly the amount from the source to
the destination and appends exactly two completed records to each side:
`withdrawal` then `transfer_out` of the amount on the source, `deposit`
then `transfer_in` of the amount on the destination — four new records in
total. -/
theorem claim_C2_transfer_success (c : Customer) (f t : Nat) (q : ℚ)
    (X Y X1 : Account)
    (hf : c.getAccount f = some X) (ht : c.getAccount t = some Y)
    (hne : f ≠ t) (hw : X.withdraw q = Except.ok X1) :
    ∃ c2 X2 Y2,
      c.transfer f t q = Except.ok (c2, X2.balance, Y2.balance)
      ∧ c2.getAccount f = some X2 ∧ c2.getAccount t = some Y2
      ∧ X2.balance = X.balance - q
      ∧ Y2.balance = Y.balance + q
      ∧ (∃ d1 d2, X2.transactions = X.transactions ++
          [{ type := "withdrawal", amount := q, description := d1,
             status := "completed" },
           { type := "transfer_out", amount := q, description := d2,
             status := "completed" }])
      ∧ (∃ d3 d4, Y2.transactions = Y.transactions ++
          [{ type := "deposit", amount := q, description := d3,
             status := "completed" },
           { type := "transfer_in", amount := q, description := d4,
             status := "completed" }]) := by
  obtain ⟨hq, hcan, hX1⟩ := (Account.withdraw_eq_ok_iff X X1 q).1 hw
  set Y1 : Account := Account.addTransaction
    { Y with balance := Y.balance + q } "deposit" q
    ("Deposit to account " ++ toString Y.accountNumber) with hY1
  have hdep : Y.deposit q = Except.ok Y1 := by
    rw [hY1]; simp [Account.deposit, not_le.mpr hq]
  set X2 : Account := X1.addTransaction "transfer_out" q
    ("Transferred to account " ++ toString t) with hX2
  set Y2 : Account := Y1.addTransaction "transfer_in" q
    ("Received from account " ++ toString f) with hY2
  set c2 : Customer :=
    { c with accounts := updateAcct (updateAcct c.accounts f X2) t Y2 }
    with hc2
  refine ⟨c2, X2, Y2, ?_, ?_, ?_, ?_, ?_, ?_, ?_⟩
  · simp only [Customer.transfer, hf, ht, if_neg hne, hw, hdep]
  · rw [hc2]
    show lookupAcct (updateAcct (updateAcct c.accounts f X2) t Y2) f = some X2
    rw [lookupAcct_update_ne _ t f _ hne]
    apply lookupAcct_update_self
    rw [Customer.getAccount] at hf
    rw [hf]
    rfl
  · rw [hc2]
    show lookupAcct (updateAcct (updateAcct c.accounts f X2) t Y2) t = some Y2
    apply lookupAcct_update_self
    rw [lookupAcct_update_ne _ f t _ (Ne.symm hne)]
    rw [Customer.getAccount] at ht
    rw [ht]
    rfl
  · rw [hX2, hX1]; rfl
  · rw [hY2, hY1]; rfl
  · refine ⟨"Withdrawal from account " ++ toString X.accountNumber,
      "Transferred to account " ++ toString t, ?_⟩
    rw [hX2, hX1]
    simp [Account.addTransaction, Transaction.create, Transaction.complete]
  · refine ⟨"Deposit to account " ++ toString Y.accountNumber,
      "Received from account " ++ toString f, ?_⟩
    rw [hY2, hY1]
    simp [Account.addTransaction, Transaction.create, Transaction.complete]

/-- C2 (witness): customer with savings account 1000 (balance 1000) and
checking account 1001 (balance 500); a transfer of 200 is permitted and
produces the claimed balances and records. -/
theorem claim_C2_witness :
    Customer.getAccount
      ⟨7, "Jo", "Doe", "jo@x", "h",
        [(1000, SavingsAccount.make 1000 7 1000),
         (1001, CheckingAccount.make 1001 7 500)], true⟩ 1000
      = some (SavingsAccount.make 1000 7 1000)
    ∧ Customer.getAccount
      ⟨7, "Jo", "Doe", "jo@x", "h",
        [(1000, SavingsAccount.make 1000 7 1000),
         (1001, CheckingAccount.make 1001 7 500)], true⟩ 1001
      = some (CheckingAccount.make 1001 7 500)
    ∧ (1000 : Nat) ≠ 1001
    ∧ (SavingsAccount.make 1000 7 1000).withdraw 200
      = Except.ok ((SavingsAccount.make 1000 7 1000).runOp
          (AccountOp.withdraw 200))
    ∧ ∃ c2 X2 Y2,
        Customer.transfer
          ⟨7, "Jo", "Doe", "jo@x", "h",
            [(1000, SavingsAccount.make 1000 7 1000),
             (1001, CheckingAccount.make 1001 7 500)], true⟩ 1000 1001 200
          = Except.ok (c2, X2.balance, Y2.balance)
        ∧ c2.getAccount 1000 = some X2 ∧ c2.getAccount 1001 = some Y2
        ∧ X2.balance = (SavingsAccount.make 1000 7 1000).balance - 200
        ∧ Y2.balance = (CheckingAccount.make 1001 7 500).balance + 200
        ∧ (∃ d1 d2, X2.transactions
            = (SavingsAccount.make 1000 7 1000).transactions ++
              [{ type := "withdrawal", amount := 200, description := d1,
                 status := "completed" },
               { type := "transfer_out", amount := 200, description := d2,
                 status := "completed" }])
        ∧ (∃ d3 d4, Y2.transactions
            = (CheckingAccount.make 1001 7 500).transactions ++
              [{ type := "deposit", amount := 200, description := d3,
                 status := "completed" },
               { type := "transfer_in", amount := 200, description := d4,
                 status := "completed" }]) := by
  have hf : Customer.getAccount
      ⟨7, "Jo", "Doe", "jo@x", "h",
        [(1000, SavingsAccount.make 1000 7 1000),
         (1001, CheckingAccount.make 1001 7 500)], true⟩ 1000
      = some (SavingsAccount.make 1000 7 1000) := rfl
  have ht : Customer.getAccount
      ⟨7, "Jo", "Doe", "jo@x", "h",
        [(1000, SavingsAccount.make 1000 7 1000),
         (1001, CheckingAccount.make 1001 7 500)], true⟩ 1001
      = some (CheckingAccount.make 1001 7 500) := rfl
  have hne : (1000 : Nat) ≠ 1001 := by decide
  have hw : (SavingsAccount.make 1000 7 1000).withdraw 200
      = Except.ok ((SavingsAccount.make 1000 7 1000).runOp
          (AccountOp.withdraw 200)) := by
    norm_num [SavingsAccount.make, Account.base, Account.addTransaction,
      Account.withdraw, Account.canWithdraw, Account.canWithdrawBase,
      Account.runOp]
  exact ⟨hf, ht, hne, hw,
    claim_C2_transfer_success _ 1000 1001 200 _ _ _ hf ht hne hw⟩

/-- C3: when both accounts exist and are distinct but the source
withdrawal throws (non-positive amount, or `_canWithdraw` false), the
transfer call propagates exactly that error. In this pure model the
failing call returns only the error and produces no updated customer: the
input customer, hence both accounts' balances, `todayWithdrawn`
accumulators and transaction histories, is untouched — matching the
source, where the `withdraw` throw aborts `transfer` before any
mutation. -/
theorem claim_C3_transfer_propagates_failure (c : Customer) (f t : Nat)
    (q : ℚ) (X Y : Account) (e : BankError)
    (hf : c.getAccount f = some X) (ht : c.getAccount t = some Y)
    (hne : f ≠ t) (hw : X.withdraw q = Except.error e) :
    c.transfer f t q = Except.error e := by
  simp only [Customer.transfer, hf, ht, if_neg hne, hw]

/-- C3 (witness): on the two-account customer, withdrawing 950 from the
savings account (balance 1000) would leave 50 < 100 = `minBalance`, so the
withdrawal is denied and the transfer propagates `WithdrawalDenied`. -/
theorem claim_C3_witness :
    Customer.getAccount
      ⟨7, "Jo", "Doe", "jo@x", "h",
        [(1000, SavingsAccount.make 1000 7 1000),
         (1001, CheckingAccount.make 1001 7 500)], true⟩ 1000
      = some (SavingsAccount.make 1000 7 1000)
    ∧ Customer.getAccount
      ⟨7, "Jo", "Doe", "jo@x", "h",
        [(1000, SavingsAccount.make 1000 7 1000),
         (1001, CheckingAccount.make 1001 7 500)], true⟩ 1001
      = some (CheckingAccount.make 1001 7 500)
    ∧ (1000 : Nat) ≠ 1001
    ∧ (SavingsAccount.make 1000 7 1000).withdraw 950
      = Except.error BankError.withdrawalDenied
    ∧ Customer.transfer
        ⟨7, "Jo", "Doe", "jo@x", "h",
          [(1000, SavingsAccount.make 1000 7 1000),
           (1001, CheckingAccount.make 1001 7 500)], true⟩ 1000 1001 950
      = Except.error BankError.withdrawalDenied := by
  have hf : Customer.getAccount
      ⟨7, "Jo", "Doe", "jo@x", "h",
        [(1000, SavingsAccount.make 1000 7 1000),
         (1001, CheckingAccount.make 1001 7 500)], true⟩ 1000
      = some (SavingsAccount.make 1000 7 1000) := rfl
  have ht : Customer.getAccount
      ⟨7, "Jo", "Doe", "jo@x", "h",
        [(1000, SavingsAccount.make 1000 7 1000),
         (1001, CheckingAccount.make 1001 7 500)], true⟩ 1001
      = some (CheckingAccount.make 1001 7 500) := rfl
  have hne : (1000 : Nat) ≠ 1001 := by decide
  have hw : (SavingsAccount.make 1000 7 1000).withdraw 950
      = Except.error BankError.withdrawalDenied := by
    norm_num [SavingsAccount.make, Account.base, Account.addTransaction,
      Account.withdraw, Account.canWithdraw, Account.canWithdrawBase]
  exact ⟨hf, ht, hne, hw,
    claim_C3_transfer_propagates_failure _ 1000 1001 950 _ _ _ hf ht hne hw⟩

/-- C8: with an instance stored, `getInstance` returns that very instance
unchanged whatever arguments are passed; the first call constructs the
bank from its own arguments (name and location from the first call), so a
second call with different arguments returns the first call's bank with
all state retained and the later arguments ignored. -/
theorem claim_C8_getInstance_singleton :
    (∀ (b : Bank) (n l : String), Bank.getInstance (some b) n l = (b, some b))
    ∧ (∀ (n1 l1 n2 l2 : String),
        Bank.getInstance (Bank.getInstance none n1 l1).2 n2 l2
          = Bank.getInstance none n1 l1
        ∧ (Bank.getInstance none n1 l1).1 = Bank.make n1 l1
        ∧ (Bank.make n1 l1).bankName = n1
        ∧ (Bank.make n1 l1).location = l1) :=
  ⟨fun _ _ _ => rfl, fun _ _ _ _ => ⟨rfl, rfl, rfl, rfl⟩⟩

/-- C9: the `transactions` getter returns a freshly allocated copy of the
history array; writing any contents whatsoever through the returned
reference leaves the account's recorded history unchanged. -/
theorem claim_C9_transactions_defensive_copy (s : Store) (a : AccountRef)
    (hvalid : a.txRef < s.next) (v : List Transaction) :
    Store.read
      (Store.write (AccountRef.transactionsGetter s a).2
        (AccountRef.transactionsGetter s a).1 v)
      a.txRef
    = Store.read s a.txRef := by
  simp [AccountRef.transactionsGetter, Store.alloc, Store.write, Store.read,
    Nat.ne_of_lt hvalid]

/-- C9 (witness): a one-array store; mutating the getter's returned array
(pushing a record into it) does not change the account's history. -/
theorem claim_C9_witness :
    (AccountRef.mk 0).txRef < (Store.mk 1 (fun _ => [])).next
    ∧ Store.read
        (Store.write
          (AccountRef.transactionsGetter (Store.mk 1 (fun _ => []))
            (AccountRef.mk 0)).2
          (AccountRef.transactionsGetter (Store.mk 1 (fun _ => []))
            (AccountRef.mk 0)).1
          [Transaction.create "deposit" 5 "x"])
        (AccountRef.mk 0).txRef
      = Store.read (Store.mk 1 (fun _ => [])) (AccountRef.mk 0).txRef :=
  ⟨by norm_num,
   claim_C9_transactions_defensive_copy (Store.mk 1 (fun _ => []))
     (AccountRef.mk 0) (by norm_num) [Transaction.create "deposit" 5 "x"]⟩

/-- C10: `openAccount` throws exactly when the lowercased type string is
neither `savings` nor `checking`; the initial deposit plays no part in
the decision, and a successful call (with any deposit, negative included)
yields an account whose balance is the deposit and whose history is the
single completed `account_opening` record of that amount. -/
theorem claim_C10_openAccount_validates_type_only (c : Customer) (ctr : Nat)
    (ty : String) (dep : ℚ) :
    ((∃ e, c.openAccount ctr ty dep = Except.error e) ↔
      (lowerStr ty ≠ "savings" ∧ lowerStr ty ≠ "checking"))
    ∧ (∀ acct c2 ctr2,
        c.openAccount ctr ty dep = Except.ok (acct, c2, ctr2) →
          acct.balance = dep
          ∧ acct.transactions =
              [{ type := "account_opening", amount := dep,
                 description := "Account opened", status := "completed" }]) := by
  constructor
  · by_cases h1 : lowerStr ty = "savings"
    · simp [Customer.openAccount, h1]
    · by_cases h2 : lowerStr ty = "checking"
      · simp [Customer.openAccount, h1, h2]
      · simp [Customer.openAccount, h1, h2]
  · intro acct c2 ctr2 h
    by_cases h1 : lowerStr ty = "savings"
    · simp only [Customer.openAccount, h1, if_pos] at h
      rw [Except.ok.injEq, Prod.mk.injEq] at h
      obtain ⟨ha, -⟩ := h
      rw [← ha]
      exact ⟨rfl, rfl⟩
    · by_cases h2 : lowerStr ty = "checking"
      · simp only [Customer.openAccount] at h
        rw [if_neg h1, if_pos h2] at h
        rw [Except.ok.injEq, Prod.mk.injEq] at h
        obtain ⟨ha, -⟩ := h
        rw [← ha]
        exact ⟨rfl, rfl⟩
      · simp [Customer.openAccount, h1, h2] at h

/-- C5 (witness): fresh savings account with balance 5000: a withdrawal
of 600 succeeds and accumulates `todayWithdrawn = 600 ≤ 1000`; a second
withdrawal of 600 (total 1200 > 1000) fails although funds suffice. -/
theorem claim_C5_witness :
    (SavingsAccount.make 1000 7 5000).withdraw 600
      = Except.ok ((SavingsAccount.make 1000 7 5000).runOp
          (AccountOp.withdraw 600))
    ∧ (SavingsAccount.make 1000 7 5000).dailyWithdrawalLimit
      < ((SavingsAccount.make 1000 7 5000).runOp
          (AccountOp.withdraw 600)).todayWithdrawn + 600
    ∧ ((SavingsAccount.make 1000 7 5000).runOp
        (AccountOp.withdraw 600)).todayWithdrawn
      = (SavingsAccount.make 1000 7 5000).todayWithdrawn + 600
    ∧ ((SavingsAccount.make 1000 7 5000).runOp
        (AccountOp.withdraw 600)).todayWithdrawn
      ≤ (SavingsAccount.make 1000 7 5000).dailyWithdrawalLimit
    ∧ (((SavingsAccount.make 1000 7 5000).runOp
        (AccountOp.withdraw 600)).withdraw 600).isOk = false := by
  have h : (SavingsAccount.make 1000 7 5000).withdraw 600
      = Except.ok ((SavingsAccount.make 1000 7 5000).runOp
          (AccountOp.withdraw 600)) := by
    norm_num [SavingsAccount.make, Account.base, Account.addTransaction,
      Account.withdraw, Account.canWithdraw, Account.canWithdrawBase,
      Account.runOp]
  have h2 : (SavingsAccount.make 1000 7 5000).dailyWithdrawalLimit
      < ((SavingsAccount.make 1000 7 5000).runOp
          (AccountOp.withdraw 600)).todayWithdrawn + 600 := by
    norm_num [SavingsAccount.make, Account.base, Account.addTransaction,
      Account.withdraw, Account.canWithdraw, Account.canWithdrawBase,
      Account.runOp]
  obtain ⟨p1, p2, p3, -⟩ :=
    claim_C5_daily_withdrawal_limit (SavingsAccount.make 1000 7 5000) _
      600 600 h h2
  exact ⟨h, h2, p1, p2, p3⟩

/-- C10 (witness): opening a savings account with initial deposit −50
succeeds, the new balance is −50, and the history is the single completed
`account_opening` record of −50. -/
theorem claim_C10_witness :
    Customer.openAccount ⟨7, "Jo", "Doe", "jo@x", "h", [], true⟩
        1000 "savings" (-50)
      = Except.ok (SavingsAccount.make 1000 7 (-50),
          ⟨7, "Jo", "Doe", "jo@x", "h",
            [(1000, SavingsAccount.make 1000 7 (-50))], true⟩, 1001)
    ∧ (SavingsAccount.make 1000 7 (-50)).balance = -50
    ∧ (SavingsAccount.make 1000 7 (-50)).transactions
      = [{ type := "account_opening", amount := -50,
           description := "Account opened", status := "completed" }] := by
  have h : Customer.openAccount ⟨7, "Jo", "Doe", "jo@x", "h", [], true⟩
      1000 "savings" (-50)
      = Except.ok (SavingsAccount.make 1000 7 (-50),
          ⟨7, "Jo", "Doe", "jo@x", "h",
            [(1000, SavingsAccount.make 1000 7 (-50))], true⟩, 1001) := rfl
  obtain ⟨hb, htx⟩ :=
    (claim_C10_openAccount_validates_type_only
      ⟨7, "Jo", "Doe", "jo@x", "h", [], true⟩ 1000 "savings" (-50)).2
      _ _ _ h
  exact ⟨h, hb, htx⟩
